import Mathlib

/-!
Verification of the azure-init provisioning agent.

Shallow embedding of the agent's source:
* `libazureinit/src/provision/password.rs` — the `passwd` backend;
* `libazureinit/src/provision/user.rs` — the `User` value object, its
  hand-written `Debug` implementation and the `useradd` backend;
* `libazureinit/src/provision/mod.rs` — the `Provision` request and the
  `Provision::provision` orchestrator with its first-success-wins backend
  chains;
* `src/main.rs` — the exit-code mapping, the configuration-medium mount
  loop (`mount_parse_ovf_env`, `get_username`) and the `provision` flow.

External effects (subprocess spawns, mounts, network reads) are passed in
explicitly as world parameters; every function also returns the trace of
the externally visible actions it performed, so ordering and gating claims
are statements about that trace.
-/

namespace AzureInit

/-- The library error taxonomy (`libazureinit::error::Error`), restricted to
the variants the provisioning code in this repository constructs or matches
on: the three per-resource exhaustion errors, `UserMissing`,
`NonEmptyPassword`, `SubprocessFailed`, and catch-all variants for io, nix
and ssh failures. -/
inductive Error
  | noUserProvisioner
  | noPasswordProvisioner
  | noHostnameProvisioner
  | userMissing (user : String)
  | nonEmptyPassword
  | subprocessFailed (command : String) (status : Int)
  | io
  | nix
  | ssh
  deriving DecidableEq

/-- An external command invocation: program plus arguments, as built by
`std::process::Command` in the Rust source. -/
structure Cmd where
  program : String
  args : List String
  deriving DecidableEq

/-- Build-time constant from `libazureinit/build.rs`:
`cargo:rustc-env=PATH_PASSWD=passwd`. -/
def PATH_PASSWD : String := "passwd"

/-- Build-time constant from `libazureinit/build.rs`:
`cargo:rustc-env=PATH_USERADD=useradd`. -/
def PATH_USERADD : String := "useradd"

/-- `passwd` from `provision/password.rs`. `spawn` supplies each spawned
command's outcome: `.error` for a spawn failure (the io error behind `?`),
`.ok status` for an exit status; status 0 is `status.success()`. Returns the
list of commands actually spawned together with the function's result.
Mirrors the source: an empty password runs `passwd -d <username>`; a
non-empty password returns `Error::NonEmptyPassword` before any command. -/
def passwd (username password : String) (spawn : Cmd → Except Unit Int) :
    List Cmd × Except Error Unit :=
  if password = "" then
    let cmd : Cmd := ⟨PATH_PASSWD, ["-d", username]⟩
    match spawn cmd with
    | .error _ => ([cmd], .error .io)
    | .ok status =>
      if status = 0 then ([cmd], .ok ())
      else ([cmd], .error (.subprocessFailed PATH_PASSWD status))
  else ([], .error .nonEmptyPassword)

/-- An SSH public key as surfaced by the metadata service
(`libazureinit::imds::PublicKeys`): key data plus key-pair path. -/
structure PublicKeys where
  key_data : String
  path : String
  deriving DecidableEq

/-- `User` from `provision/user.rs`: name, supplemental groups, ssh keys and
an optional password. -/
structure User where
  name : String
  groups : List String
  ssh_keys : List PublicKeys
  password : Option String

/-- `User::new` from `provision/user.rs`: default groups are `["wheel"]`,
no password. -/
def User.new (name : String) (ssh_keys : List PublicKeys) : User :=
  ⟨name, ["wheel"], ssh_keys, none⟩

/-- `User::with_password` from `provision/user.rs`. -/
def User.with_password (u : User) (password : String) : User :=
  { u with password := some password }

/-- Rendering of a `Bool` as Rust's `Debug` writes it. -/
def debugBool (b : Bool) : String := if b then "true" else "false"

/-- Rendering of a list of fields as Rust's `Debug` for `Vec` writes it. -/
def debugList {α : Type} (render : α → String) (xs : List α) : String :=
  "[" ++ String.intercalate ", " (xs.map render) ++ "]"

/-- Rendering of a `PublicKeys` value under its derived `Debug` instance. -/
def debugPublicKeys (k : PublicKeys) : String :=
  "PublicKeys \x7b key_data: " ++ k.key_data.quote ++ ", path: " ++
    k.path.quote ++ " \x7d"

/-- The hand-written `Debug for User` implementation from
`provision/user.rs`: it renders `name`, `groups` and `ssh_keys`, but for
`password` it renders only `self.password.is_some()` — never the password
itself. -/
def User.debugFmt (u : User) : String :=
  "User \x7b name: " ++ u.name.quote ++
    ", groups: " ++ debugList String.quote u.groups ++
    ", ssh_keys: " ++ debugList debugPublicKeys u.ssh_keys ++
    ", password: " ++ debugBool u.password.isSome ++ " \x7d"

/-- `useradd` from `provision/user.rs`: builds the `useradd` invocation with
the user's name, the fixed comment, the joined groups, the home directory
and `-m`, and maps a non-zero exit status to `Error::SubprocessFailed`. -/
def useradd (user : User) (spawn : Cmd → Except Unit Int) :
    List Cmd × Except Error Unit :=
  let home_path := "/home/" ++ user.name
  let cmd : Cmd :=
    ⟨PATH_USERADD,
      [user.name, "--comment",
       "Provisioning agent created this user based on username provided in IMDS",
       "--groups", String.intercalate "," user.groups,
       "-d", home_path, "-m"]⟩
  match spawn cmd with
  | .error _ => ([cmd], .error .io)
  | .ok status =>
    if status = 0 then ([cmd], .ok ())
    else ([cmd], .error (.subprocessFailed PATH_USERADD status))

/-- The `exitcode` crate's `CONFIG` value (sysexits `EX_CONFIG`), used by
`main` in `src/main.rs` for configuration-class failures. -/
def exitcodeCONFIG : Nat := 78

/-- The root-cause classification `main` performs: `Some(UserMissing)` and
`Some(NonEmptyPassword)` are the configuration-class root causes. -/
def isConfigRootCause : Option Error → Bool
  | some (.userMissing _) => true
  | some .nonEmptyPassword => true
  | _ => false

/-- The exit-code mapping of `main` in `src/main.rs`. The argument is the
result of `provision().await`, with an error abstracted to
`root_cause().downcast_ref::<LibError>()` — `none` when the root cause is
not a library error. `Ok` maps to `ExitCode::SUCCESS` (0); `UserMissing`
and `NonEmptyPassword` root causes map to `exitcode::CONFIG`; everything
else maps to `ExitCode::FAILURE` (1). -/
def main_exit (result : Except (Option Error) Unit) : Nat :=
  match result with
  | .ok _ => 0
  | .error (some (.userMissing _)) => exitcodeCONFIG
  | .error (some .nonEmptyPassword) => exitcodeCONFIG
  | .error (some _) => 1
  | .error none => 1

/-- The user-creation backend variants of `provision/user.rs`
(`strum::EnumIter` order). The `FakeUseradd` variant is `cfg(test)`-only and
is excluded, so the default enumeration is `[useradd]`. -/
inductive UserProvisioner
  | useradd
  deriving DecidableEq

/-- The password backend variants of `provision/password.rs`
(`strum::EnumIter` order, `cfg(test)` variant excluded). -/
inductive PasswordProvisioner
  | passwd
  deriving DecidableEq

/-- Modelled from the spec: the hostname backend variants. The file
`provision/hostname.rs` is not among the staged sources; §4.1/§6 of the spec
and `build.rs` (`PATH_HOSTNAMECTL`) describe one real variant backed by the
hostname-set utility. -/
inductive HostnameProvisioner
  | hostnamectl
  deriving DecidableEq

/-- The host environment `Provision::provision` runs against: the outcome of
each backend operation and of the external steps whose implementations live
outside the staged sources. `userRun` is the outcome of
`backend.create(&self.username)`; `spawn` feeds the `passwd` embedding;
`hostnameRun` is the outcome of `backend.set(&self.hostname)`; `lookup` is
`nix::unistd::User::from_name` (`.error` = nix failure, `.ok none` = no such
user); `sshOk` is the outcome of `ssh::provision_ssh` (modelled from the
spec: SSH key installation, not among the staged sources). -/
structure World where
  userRun : UserProvisioner → String → Bool
  spawn : Cmd → Except Unit Int
  hostnameRun : HostnameProvisioner → String → Bool
  lookup : Except Unit (Option Unit)
  sshOk : Bool

/-- The `Provision` request of `provision/mod.rs`: hostname, username, keys,
optional password and the three optional backend-selection lists. -/
structure Provision where
  hostname : String
  username : String
  keys : List PublicKeys
  password : Option String
  hostname_backends : Option (List HostnameProvisioner)
  user_backends : Option (List UserProvisioner)
  password_backends : Option (List PasswordProvisioner)

/-- `Provision::new`: hostname, username and keys, everything else default
(`None`), as in `provision/mod.rs`. -/
def Provision.new (hostname username : String) (ssh_keys : List PublicKeys) :
    Provision :=
  ⟨hostname, username, ssh_keys, none, none, none, none⟩

/-- The number of backends a first-success-wins chain invokes: Rust's
`iter().find_map(..)` calls the operation on each element in order and stops
at the first success, so on the list of per-backend outcomes it consumes
the failing prefix plus the first success (or everything, if none
succeeds). -/
def chainAttempts : List Bool → Nat
  | [] => 0
  | b :: rest => if b then 1 else chainAttempts rest + 1

/-- The index of the backend whose effect a first-success-wins chain
applies: the first `true` in the outcome list, `none` if the list is
exhausted (then `find_map` returns `None` and `ok_or` yields the
resource-specific error). -/
def chainResult : List Bool → Option Nat
  | [] => none
  | b :: rest => if b then some 0 else (chainResult rest).map (· + 1)

/-- Whether a first-success-wins chain succeeds at all. -/
def chainSucceeds (outs : List Bool) : Bool := (chainResult outs).isSome

/-- The outcome of `PasswordProvisioner::set` from `provision/password.rs`:
the real variant delegates to `passwd`. -/
def passwordSet (b : PasswordProvisioner) (username password : String)
    (w : World) : Except Error Unit :=
  match b with
  | .passwd => (passwd username password w.spawn).2

/-- Per-backend outcomes of the user chain in `Provision::provision`:
`self.user_backends.unwrap_or_else(|| iter().collect())`, each invoked as
`backend.create(&self.username)`. -/
def userOuts (p : Provision) (w : World) : List Bool :=
  (p.user_backends.getD [UserProvisioner.useradd]).map
    fun b => w.userRun b p.username

/-- Per-backend outcomes of the password chain in `Provision::provision`:
each invoked as
`backend.set(&self.username, self.password.as_deref().unwrap_or(""))`. -/
def passwordOuts (p : Provision) (w : World) : List Bool :=
  (p.password_backends.getD [PasswordProvisioner.passwd]).map
    fun b => (passwordSet b p.username (p.password.getD "") w).isOk

/-- Per-backend outcomes of the hostname chain in `Provision::provision`:
each invoked as `backend.set(&self.hostname)`. -/
def hostnameOuts (p : Provision) (w : World) : List Bool :=
  (p.hostname_backends.getD [HostnameProvisioner.hostnamectl]).map
    fun b => w.hostnameRun b p.hostname

/-- The result of the SSH step of `Provision::provision`: the
`nix::unistd::User::from_name` lookup (`?` on a nix error, `ok_or` of
`Error::UserMissing` on `None`), then `ssh::provision_ssh`. -/
def sshResult (p : Provision) (w : World) : Except Error Unit :=
  match w.lookup with
  | .error _ => .error .nix
  | .ok none => .error (.userMissing p.username)
  | .ok (some _) => if w.sshOk then .ok () else .error .ssh

/-- The orchestrator steps `Provision::provision` performs, in the order it
performs them; the chain steps record how many backends they invoked. -/
inductive StepEvent
  | userStep (attempts : Nat)
  | passwordStep (attempts : Nat)
  | sshStep
  | hostnameStep (attempts : Nat)
  deriving DecidableEq

/-- The fixed resource order of the orchestrator: user, password, ssh,
hostname. -/
def stepRank : StepEvent → Nat
  | .userStep _ => 0
  | .passwordStep _ => 1
  | .sshStep => 2
  | .hostnameStep _ => 3

/-- `Provision::provision` from `provision/mod.rs`: the user chain
(`ok_or(Error::NoUserProvisioner)?`), then the password chain
(`ok_or(Error::NoPasswordProvisioner)?`), then — only when
`!self.keys.is_empty()` — the account lookup and SSH key installation, then
the hostname chain (`ok_or(Error::NoHostnameProvisioner)?`). Returns the
step trace together with the result. -/
def Provision.provision (p : Provision) (w : World) :
    List StepEvent × Except Error Unit :=
  let uo := userOuts p w
  let ue := StepEvent.userStep (chainAttempts uo)
  if chainSucceeds uo then
    let po := passwordOuts p w
    let pe := StepEvent.passwordStep (chainAttempts po)
    if chainSucceeds po then
      let ho := hostnameOuts p w
      let he := StepEvent.hostnameStep (chainAttempts ho)
      if p.keys.isEmpty then
        if chainSucceeds ho then ([ue, pe, he], .ok ())
        else ([ue, pe, he], .error .noHostnameProvisioner)
      else
        match sshResult p w with
        | .error e => ([ue, pe, .sshStep], .error e)
        | .ok _ =>
          if chainSucceeds ho then ([ue, pe, .sshStep, he], .ok ())
          else ([ue, pe, .sshStep, he], .error .noHostnameProvisioner)
    else ([ue, pe], .error .noPasswordProvisioner)
  else ([ue], .error .noUserProvisioner)

/-- The provisioning payload parsed from the configuration medium
(`libazureinit::media::Environment` as accessed by `src/main.rs`; the
`password` field is modelled from the spec: §3 and §6 say the provisioning
section carries username and password fields). -/
structure LinuxProvConfSet where
  username : String
  password : String
  deriving DecidableEq

/-- The provisioning section of the OVF environment document. -/
structure ProvisioningSection where
  linux_prov_conf_set : LinuxProvConfSet
  deriving DecidableEq

/-- The parsed OVF environment document. -/
structure Environment where
  provisioning_section : ProvisioningSection
  deriving DecidableEq

/-- The behavior of one candidate block device: does mounting succeed, what
do reading and parsing the mounted OVF environment yield, does unmounting
succeed. -/
inductive ReadParse
  | readErr
  | parseErr
  | ok (env : Environment)
  deriving DecidableEq

/-- A candidate configuration-medium device together with the outcomes of
the external mount/read/parse/unmount operations on it. -/
structure Device where
  name : String
  mountOk : Bool
  readParse : ReadParse
  unmountOk : Bool
  deriving DecidableEq

/-- The externally visible mount actions of the medium resolver: a
successful mount of a device, and an unmount call on a device. -/
inductive MediaEvent
  | mounted (dev : String)
  | unmountCalled (dev : String)
  deriving DecidableEq

/-- `mount_parse_ovf_env` from `src/main.rs`: mount the device (`?` on
failure), read the OVF environment to a string (`?` on failure), parse it
(`?` on failure), then unmount (`?` on failure) and return the parsed
environment. The `?` operator returns from the function immediately, so the
unmount call is reached only when read and parse both succeed. -/
def mount_parse_ovf_env (d : Device) : List MediaEvent × Except Unit Environment :=
  if d.mountOk then
    match d.readParse with
    | .readErr => ([.mounted d.name], .error ())
    | .parseErr => ([.mounted d.name], .error ())
    | .ok env =>
      if d.unmountOk then
        ([.mounted d.name, .unmountCalled d.name], .ok env)
      else
        ([.mounted d.name, .unmountCalled d.name], .error ())
  else ([], .error ())

/-- The `for dev in ovf_devices` loop of `get_username` in `src/main.rs`:
`environment` starts as `None`; each iteration runs `mount_parse_ovf_env`
on its device and on success overwrites `environment` with `Some(env)`,
on failure `continue`s, keeping the previous value. The loop has no
`break`: it runs every candidate, and the final value is the last
success. -/
def ovfLoop : List Device → List MediaEvent × Option Environment
  | [] => ([], none)
  | d :: rest =>
    let head := mount_parse_ovf_env d
    let tail := ovfLoop rest
    (head.1 ++ tail.1,
      match tail.2 with
      | some env => some env
      | none => head.2.toOption)

/-- `get_username` from `src/main.rs`: if password authentication is
disabled, take the username from the metadata service; otherwise enumerate
the candidate devices and run the OVF loop, failing when it yields no
environment, and otherwise extracting
`environment.provisioning_section.linux_prov_conf_set.username`. The first
argument is `imds::is_password_authentication_disabled`, the second
`imds::get_username`, the third `media::get_mount_device`. -/
def get_username (authDisabled : Except Unit Bool)
    (imdsUsername : Except Unit String)
    (mountDevices : Except Unit (List Device)) :
    List MediaEvent × Except Unit String :=
  match authDisabled with
  | .error e => ([], .error e)
  | .ok true => ([], imdsUsername)
  | .ok false =>
    match mountDevices with
    | .error e => ([], .error e)
    | .ok devs =>
      let loop := ovfLoop devs
      match loop.2 with
      | some env =>
        (loop.1, .ok env.provisioning_section.linux_prov_conf_set.username)
      | none => (loop.1, .error ())

/-- The externally visible actions of the `provision` flow in
`src/main.rs`, with the arguments the source passes to them. -/
inductive MainEvent
  | createUser (username password : String)
  | createSshDirectory (username path : String)
  | setSshKeys (keys : List String) (username path : String)
  | setHostname (hn : String)
  | getGoalstate
  | reportHealth
  deriving DecidableEq

/-- The external world of the `provision` flow in `src/main.rs`: the
metadata body, the parse results on that body, the candidate devices, and
the outcome of each host-mutating or network step. -/
structure MainWorld where
  imdsQuery : Except Unit String
  authDisabled : String → Except Unit Bool
  imdsUsername : String → Except Unit String
  mountDevices : Except Unit (List Device)
  createUserOk : String → Bool
  createSshDirOk : Bool
  sshKeys : String → Except Unit (List String)
  setSshKeysOk : Bool
  imdsHostname : String → Except Unit String
  setHostnameOk : Bool
  goalstateOk : Bool
  reportHealthOk : Bool

/-- `provision` from `src/main.rs`: query the metadata service, resolve the
username via `get_username`, then — with the source's comment "always pass
an empty password" — call `create_user(username, "")`, create the ssh
directory at `/home/<username>`, fetch the keys, write them to
`/home/<username>/.ssh`, set the hostname, fetch the goal state and report
health. Every step is gated on the previous step's success by `?`. Returns
the trace of actions performed and the overall result. -/
def mainProvision (w : MainWorld) : List MainEvent × Except Unit Unit :=
  match w.imdsQuery with
  | .error _ => ([], .error ())
  | .ok imds_body =>
    match (get_username (w.authDisabled imds_body) (w.imdsUsername imds_body)
        w.mountDevices).2 with
    | .error _ => ([], .error ())
    | .ok username =>
      let file_path := "/home/" ++ username
      let ev0 := [MainEvent.createUser username ""]
      if w.createUserOk username then
        let ev1 := ev0 ++ [MainEvent.createSshDirectory username file_path]
        if w.createSshDirOk then
          match w.sshKeys imds_body with
          | .error _ => (ev1, .error ())
          | .ok keys =>
            let ssh_path := file_path ++ "/.ssh"
            let ev2 := ev1 ++ [MainEvent.setSshKeys keys username ssh_path]
            if w.setSshKeysOk then
              match w.imdsHostname imds_body with
              | .error _ => (ev2, .error ())
              | .ok hn =>
                let ev3 := ev2 ++ [MainEvent.setHostname hn]
                if w.setHostnameOk then
                  let ev4 := ev3 ++ [MainEvent.getGoalstate]
                  if w.goalstateOk then
                    let ev5 := ev4 ++ [MainEvent.reportHealth]
                    if w.reportHealthOk then (ev5, .ok ())
                    else (ev5, .error ())
                  else (ev4, .error ())
                else (ev3, .error ())
            else (ev2, .error ())
        else (ev1, .error ())
      else (ev0, .error ())

/-- Replace the medium-supplied password of an environment by the empty
string, keeping the username. -/
def scrubEnv (env : Environment) : Environment :=
  ⟨⟨⟨env.provisioning_section.linux_prov_conf_set.username, ""⟩⟩⟩

/-- Replace the medium-supplied password of a device's payload by the empty
string, keeping everything else. -/
def scrubDevice (d : Device) : Device :=
  ⟨d.name, d.mountOk,
    match d.readParse with
    | .ok env => .ok (scrubEnv env)
    | other => other,
    d.unmountOk⟩

/-- C6: for every username and every non-empty password, `passwd` returns
`Error::NonEmptyPassword` and spawns no subprocess; only an empty password
(disable password authentication) invokes the password utility, namely
`passwd -d <username>`. -/
theorem passwd_rejects_nonempty_password (username password : String)
    (spawn : Cmd → Except Unit Int) :
    (password ≠ "" →
      passwd username password spawn = ([], .error Error.nonEmptyPassword))
  ∧ (password = "" →
      (passwd username password spawn).1 =
        [⟨PATH_PASSWD, ["-d", username]⟩]) := by
  constructor
  · intro h
    simp [passwd, h]
  · intro h
    subst h
    simp only [passwd, if_pos rfl]
    cases hs : spawn ⟨PATH_PASSWD, ["-d", username]⟩ with
    | error e => simp
    | ok status =>
      by_cases h0 : status = 0 <;> simp [h0]

/-- C9: the rendered `Debug` representation of a `User` does not depend on
the password's value: two users that differ only in the (set) password
render identically. -/
theorem user_debug_hides_password (name : String) (groups : List String)
    (keys : List PublicKeys) (p q : String) :
    User.debugFmt ⟨name, groups, keys, some p⟩ =
      User.debugFmt ⟨name, groups, keys, some q⟩ := rfl

/-- C5: the process exit code is 0 exactly on success; it is the distinct
configuration-error code `exitcode::CONFIG` exactly when the root cause is
`UserMissing` or `NonEmptyPassword`; every other failure yields the generic
failure code 1. -/
theorem main_exit_code_mapping (r : Except (Option Error) Unit) :
    (main_exit r = 0 ↔ r = .ok ())
  ∧ (main_exit r = exitcodeCONFIG ↔
      ∃ rc, r = .error rc ∧ isConfigRootCause rc = true)
  ∧ (main_exit r = 1 ↔
      ∃ rc, r = .error rc ∧ isConfigRootCause rc = false) := by
  cases r with
  | ok u => simp [main_exit, exitcodeCONFIG, isConfigRootCause]
  | error rc =>
    rcases rc with _ | e
    · simp [main_exit, exitcodeCONFIG, isConfigRootCause]
    · cases e <;> simp [main_exit, exitcodeCONFIG, isConfigRootCause]

/-- C2: in a first-success-wins chain whose k-th variant (0-indexed here) is
the first to succeed, exactly the variants 0..k are invoked — each exactly
once, in order — the k-th variant's effect is the one applied, and no
variant after k is invoked; the chain never invokes more variants than it
has. -/
theorem chain_first_success_wins (outs : List Bool) (k : Nat)
    (hk : k < outs.length)
    (hbefore : ∀ i (hi : i < k), outs[i] = false)
    (hsucc : outs[k] = true) :
    chainAttempts outs = k + 1
  ∧ chainResult outs = some k
  ∧ (∀ i, i ∈ List.range (chainAttempts outs) ↔ i ≤ k)
  ∧ (List.range (chainAttempts outs)).Nodup
  ∧ chainAttempts outs ≤ outs.length := by
  have core : chainAttempts outs = k + 1 ∧ chainResult outs = some k := by
    induction outs generalizing k with
    | nil => exact absurd hk (Nat.not_lt_zero k)
    | cons b rest ih =>
      cases k with
      | zero =>
        have hb : b = true := by simpa using hsucc
        simp [chainAttempts, chainResult, hb]
      | succ k =>
        have hb : b = false := by simpa using hbefore 0 (Nat.succ_pos k)
        have hk' : k < rest.length := Nat.lt_of_succ_lt_succ hk
        have hbefore' : ∀ i (hi : i < k), rest[i] = false := by
          intro i hi
          simpa using hbefore (i + 1) (Nat.succ_lt_succ hi)
        have hsucc' : rest[k] = true := by simpa using hsucc
        obtain ⟨h1, h2⟩ := ih k hk' hbefore' hsucc'
        simp [chainAttempts, chainResult, hb, h1, h2]
  refine ⟨core.1, core.2, ?_, ?_, ?_⟩
  · intro i
    rw [core.1]
    simp [List.mem_range, Nat.lt_succ_iff]
  · exact List.nodup_range _
  · rw [core.1]
    exact hk

/-- C2 witness: on the outcome list `[false, true, true]` the second variant
is the first success — the chain invokes exactly the first two variants,
each once, applies the second's effect, and never touches the third. -/
theorem chain_first_success_wins_concrete :
    chainAttempts [false, true, true] = 1 + 1
  ∧ chainResult [false, true, true] = some 1
  ∧ (∀ i, i ∈ List.range (chainAttempts [false, true, true]) ↔ i ≤ 1)
  ∧ (List.range (chainAttempts [false, true, true])).Nodup
  ∧ chainAttempts [false, true, true] ≤ [false, true, true].length :=
  chain_first_success_wins [false, true, true] 1 (by decide) (by decide)
    (by decide)

/-- C1: `Provision::provision` performs its steps in the fixed order
user-creation, password, SSH installation (only with keys present),
hostname — the trace is strictly increasing in `stepRank` — each step runs
only if the previous one succeeded, and the first terminal failure is
returned with no later step in the trace. -/
theorem provision_fixed_order_gating (p : Provision) (w : World) :
    List.Chain' (fun a b => stepRank a < stepRank b) (p.provision w).1
  ∧ (chainSucceeds (userOuts p w) = false →
      p.provision w =
        ([StepEvent.userStep (chainAttempts (userOuts p w))],
          .error Error.noUserProvisioner))
  ∧ (chainSucceeds (userOuts p w) = true →
      chainSucceeds (passwordOuts p w) = false →
      p.provision w =
        ([StepEvent.userStep (chainAttempts (userOuts p w)),
          StepEvent.passwordStep (chainAttempts (passwordOuts p w))],
          .error Error.noPasswordProvisioner))
  ∧ (∀ e, chainSucceeds (userOuts p w) = true →
      chainSucceeds (passwordOuts p w) = true →
      p.keys ≠ [] → sshResult p w = .error e →
      p.provision w =
        ([StepEvent.userStep (chainAttempts (userOuts p w)),
          StepEvent.passwordStep (chainAttempts (passwordOuts p w)),
          StepEvent.sshStep], .error e))
  ∧ (chainSucceeds (userOuts p w) = true →
      chainSucceeds (passwordOuts p w) = true →
      p.keys = [] →
      p.provision w =
        ([StepEvent.userStep (chainAttempts (userOuts p w)),
          StepEvent.passwordStep (chainAttempts (passwordOuts p w)),
          StepEvent.hostnameStep (chainAttempts (hostnameOuts p w))],
          if chainSucceeds (hostnameOuts p w) = true then .ok ()
          else .error Error.noHostnameProvisioner))
  ∧ (chainSucceeds (userOuts p w) = true →
      chainSucceeds (passwordOuts p w) = true →
      p.keys ≠ [] → sshResult p w = .ok () →
      p.provision w =
        ([StepEvent.userStep (chainAttempts (userOuts p w)),
          StepEvent.passwordStep (chainAttempts (passwordOuts p w)),
          StepEvent.sshStep,
          StepEvent.hostnameStep (chainAttempts (hostnameOuts p w))],
          if chainSucceeds (hostnameOuts p w) = true then .ok ()
          else .error Error.noHostnameProvisioner)) := by
  cases hu : chainSucceeds (userOuts p w) <;>
    cases hp : chainSucceeds (passwordOuts p w) <;>
      cases hh : chainSucceeds (hostnameOuts p w) <;>
        cases hk : p.keys.isEmpty <;>
          cases hs : sshResult p w <;>
            simp_all [Provision.provision, stepRank, List.isEmpty_iff]

/-- C7: whenever a resource's whole backend chain fails at the point its
step runs, `Provision::provision` returns that resource's no-provisioner
error and no later orchestrator step appears in the trace. -/
theorem provision_exhaustion_errors (p : Provision) (w : World) :
    (chainSucceeds (userOuts p w) = false →
      (p.provision w).2 = .error Error.noUserProvisioner
      ∧ (∀ n, StepEvent.passwordStep n ∉ (p.provision w).1)
      ∧ StepEvent.sshStep ∉ (p.provision w).1
      ∧ (∀ n, StepEvent.hostnameStep n ∉ (p.provision w).1))
  ∧ (chainSucceeds (userOuts p w) = true →
      chainSucceeds (passwordOuts p w) = false →
      (p.provision w).2 = .error Error.noPasswordProvisioner
      ∧ StepEvent.sshStep ∉ (p.provision w).1
      ∧ (∀ n, StepEvent.hostnameStep n ∉ (p.provision w).1))
  ∧ (chainSucceeds (userOuts p w) = true →
      chainSucceeds (passwordOuts p w) = true →
      (p.keys = [] ∨ sshResult p w = .ok ()) →
      chainSucceeds (hostnameOuts p w) = false →
      (p.provision w).2 = .error Error.noHostnameProvisioner) := by
  cases hu : chainSucceeds (userOuts p w) <;>
    cases hp : chainSucceeds (passwordOuts p w) <;>
      cases hh : chainSucceeds (hostnameOuts p w) <;>
        cases hk : p.keys.isEmpty <;>
          cases hs : sshResult p w <;>
            simp_all [Provision.provision, List.isEmpty_iff]

/-- C8: the SSH step — the account lookup plus key installation — is
attempted if and only if the key list is non-empty (given the orchestrator
reaches it), and with an empty key list the trace is exactly user-creation,
password, hostname, with no account lookup in between. -/
theorem provision_ssh_step_gate (p : Provision) (w : World) :
    (p.keys = [] → StepEvent.sshStep ∉ (p.provision w).1)
  ∧ (chainSucceeds (userOuts p w) = true →
      chainSucceeds (passwordOuts p w) = true →
      (StepEvent.sshStep ∈ (p.provision w).1 ↔ p.keys ≠ []))
  ∧ (p.keys = [] → chainSucceeds (userOuts p w) = true →
      chainSucceeds (passwordOuts p w) = true →
      (p.provision w).1 =
        [StepEvent.userStep (chainAttempts (userOuts p w)),
         StepEvent.passwordStep (chainAttempts (passwordOuts p w)),
         StepEvent.hostnameStep (chainAttempts (hostnameOuts p w))]) := by
  cases hu : chainSucceeds (userOuts p w) <;>
    cases hp : chainSucceeds (passwordOuts p w) <;>
      cases hh : chainSucceeds (hostnameOuts p w) <;>
        cases hk : p.keys.isEmpty <;>
          cases hs : sshResult p w <;>
            simp_all [Provision.provision, List.isEmpty_iff]

/-- C3 evaluated at a failing input: with two candidate devices that both
mount and parse successfully, the loop of `get_username` does not stop at
the first success — it also mounts the second candidate and returns the
second environment's username, not the first's. -/
theorem media_loop_mounts_after_success :
    get_username (.ok false) (.ok "imdsuser")
        (.ok [⟨"/dev/sr0", true, .ok ⟨⟨⟨"userA", "pwA"⟩⟩⟩, true⟩,
              ⟨"/dev/sr1", true, .ok ⟨⟨⟨"userB", "pwB"⟩⟩⟩, true⟩]) =
      ([.mounted "/dev/sr0", .unmountCalled "/dev/sr0",
        .mounted "/dev/sr1", .unmountCalled "/dev/sr1"], .ok "userB")
  ∧ MediaEvent.mounted "/dev/sr1" ∈
      (get_username (.ok false) (.ok "imdsuser")
        (.ok [⟨"/dev/sr0", true, .ok ⟨⟨⟨"userA", "pwA"⟩⟩⟩, true⟩,
              ⟨"/dev/sr1", true, .ok ⟨⟨⟨"userB", "pwB"⟩⟩⟩, true⟩])).1 :=
  ⟨rfl, by decide⟩

/-- C4 evaluated at a failing input: a device that mounts successfully but
whose OVF environment fails to parse makes `mount_parse_ovf_env` return the
error with no unmount call in its trace — the medium stays mounted. -/
theorem mount_skips_unmount_on_parse_failure :
    mount_parse_ovf_env ⟨"/dev/sr0", true, .parseErr, true⟩ =
      ([MediaEvent.mounted "/dev/sr0"], .error ())
  ∧ MediaEvent.unmountCalled "/dev/sr0" ∉
      (mount_parse_ovf_env ⟨"/dev/sr0", true, .parseErr, true⟩).1 :=
  ⟨rfl, by decide⟩

/-- Scrubbing a device's payload password changes nothing about the mount
attempt except the payload: same trace, result mapped through
`scrubEnv`. -/
theorem mount_parse_ovf_env_scrub (d : Device) :
    mount_parse_ovf_env (scrubDevice d) =
      ((mount_parse_ovf_env d).1, (mount_parse_ovf_env d).2.map scrubEnv) := by
  obtain ⟨name, mountOk, readParse, unmountOk⟩ := d
  cases mountOk <;> cases readParse <;> cases unmountOk <;>
    simp [mount_parse_ovf_env, scrubDevice, Except.map]

/-- Scrubbing every device's payload password leaves the OVF loop's trace
unchanged and maps its resulting environment through `scrubEnv`. -/
theorem ovfLoop_scrub (devs : List Device) :
    ovfLoop (devs.map scrubDevice) =
      ((ovfLoop devs).1, (ovfLoop devs).2.map scrubEnv) := by
  induction devs with
  | nil => rfl
  | cons d rest ih =>
    simp only [List.map_cons, ovfLoop, ih, mount_parse_ovf_env_scrub d]
    cases hrest : (ovfLoop rest).2 <;>
      cases hd : (mount_parse_ovf_env d).2 <;>
        simp [Except.toOption, Except.map]

/-- Scrubbing the medium-supplied passwords does not change `get_username`
at all: only the username field of the parsed environment is read. -/
theorem get_username_scrub (a : Except Unit Bool) (iu : Except Unit String)
    (md : Except Unit (List Device)) :
    get_username a iu (Except.map (List.map scrubDevice) md) =
      get_username a iu md := by
  cases a with
  | error e => rfl
  | ok b =>
    cases b with
    | true => rfl
    | false =>
      cases md with
      | error e => rfl
      | ok devs =>
        simp only [Except.map, get_username, ovfLoop_scrub]
        cases h : (ovfLoop devs).2 <;> simp [scrubEnv]

/-- C10: every account-creation call the `src/main.rs` provision flow makes
passes the empty string as the password — regardless of the world, so in
particular when password authentication is enabled and the medium supplies
a non-empty password — and the medium-supplied password never influences
the username resolution: scrubbing it from every candidate device leaves
`get_username` unchanged. -/
theorem create_user_gets_empty_password (w : MainWorld) :
    ((mainProvision w).1.all fun e =>
      match e with
      | MainEvent.createUser _ password => password == ""
      | _ => true) = true
  ∧ (∀ a iu md, get_username a iu (Except.map (List.map scrubDevice) md) =
      get_username a iu md) := by
  refine ⟨?_, fun a iu md => get_username_scrub a iu md⟩
  unfold mainProvision
  repeat' split <;> try rfl

end AzureInit
